import Mathlib

/-!
Shallow embedding of the trade-fundex-bot Telegram trading bot
(`src/types.ts`, `src/utils.ts` — the `TradingBot` class and `scQuery`),
for checking the natural-language specification against the code.

Modelling conventions:
* JavaScript numbers and BigNumber values are modelled exactly, as
  rationals (`Q`, kept normalized by the smart constructor `mkQ`) extended
  with NaN and the infinities (`JSNum`); IEEE-754 rounding of doubles and
  BigNumber's significant-digit division default are outside the model.
  `BigNumber(x).times(y)` is exact decimal arithmetic, matching `jsMul`
  on finite values.
* Strings are Lean `String`s; the character-level helpers below reproduce
  the JavaScript operations the bot uses (`trim`, `split(",")`,
  `split(/\s+/)`, `slice`, substring search for regex literals,
  `parseFloat`, `parseInt`).
* The external world (wallet load, contract query, balance fetch, swap
  submission) is a record of outcomes `World`; every observable action of
  the bot (chat message, contract query, balance fetch, swap submission)
  is an `Effect`, and handlers return the list of effects they perform.
* A thrown JavaScript error is an `Except.error` / `Option.some` carrying
  the error message string.
-/

/-- Exact rational `n / d` (`d` a positive natural for all values built by
`mkQ`); the representation of finite JavaScript / BigNumber values. -/
structure Q where
  n : ℤ
  d : ℕ
deriving DecidableEq, Repr

/-- Normalizing constructor: divide out the gcd, so that equal values have
equal representations. -/
def mkQ (n : ℤ) (d : ℕ) : Q :=
  if d = 0 then ⟨0, 1⟩
  else
    let g := Nat.gcd n.natAbs d
    ⟨n / (g : ℤ), d / g⟩

/-- Embed an integer. -/
def Q.ofInt (i : ℤ) : Q := ⟨i, 1⟩

/-- Exact multiplication. -/
def Q.mul (a b : Q) : Q := mkQ (a.n * b.n) (a.d * b.d)

/-- Decide `a ≤ b` by cross-multiplication (denominators positive). -/
def Q.le (a b : Q) : Bool := decide (a.n * (b.d : ℤ) ≤ b.n * (a.d : ℤ))

/-- `⌊a⌋` (floor division). -/
def Q.floor (a : Q) : ℤ := Int.fdiv a.n a.d

/-- Whether the value is zero. -/
def Q.isZero (a : Q) : Bool := decide (a.n = 0)

/-- Whether the value is positive. -/
def Q.isPos (a : Q) : Bool := decide (0 < a.n)

/-- JavaScript / BigNumber numeric value: NaN, ±Infinity, or an exact
finite value (IEEE rounding abstracted away). -/
inductive JSNum where
  | nan : JSNum
  | inf : JSNum
  | neginf : JSNum
  | num : Q → JSNum
deriving DecidableEq, Repr

/-- `isNaN` / `BigNumber.isNaN`. -/
def jsIsNaN : JSNum → Bool
  | .nan => true
  | _ => false

/-- JavaScript truthiness of a number: NaN and 0 are falsy. -/
def jsTruthy : JSNum → Bool
  | .nan => false
  | .num q => !q.isZero
  | _ => true

/-- Multiplication (`BigNumber.times`); NaN absorbs, `±∞ × 0 = NaN`. -/
def jsMul : JSNum → JSNum → JSNum
  | .nan, _ => .nan
  | _, .nan => .nan
  | .inf, .inf => .inf
  | .inf, .neginf => .neginf
  | .neginf, .inf => .neginf
  | .neginf, .neginf => .inf
  | .inf, .num b => if b.isZero then .nan else if b.isPos then .inf else .neginf
  | .neginf, .num b => if b.isZero then .nan else if b.isPos then .neginf else .inf
  | .num a, .inf => if a.isZero then .nan else if a.isPos then .inf else .neginf
  | .num a, .neginf => if a.isZero then .nan else if a.isPos then .neginf else .inf
  | .num a, .num b => .num (a.mul b)

/-- `BigNumber.isLessThanOrEqualTo`; any comparison with NaN is false. -/
def jsLe : JSNum → JSNum → Bool
  | .nan, _ => false
  | _, .nan => false
  | .neginf, _ => true
  | .inf, .inf => true
  | .inf, _ => false
  | .num _, .inf => true
  | .num _, .neginf => false
  | .num a, .num b => a.le b

/-- `Math.floor`; NaN and infinities are fixed points. -/
def jsFloor : JSNum → JSNum
  | .num q => .num (Q.ofInt q.floor)
  | x => x

/-! ### Character-level string helpers (JavaScript semantics) -/

/-- Digit list to natural number (most significant first). -/
def digitsToNat (ds : List Char) : ℕ :=
  ds.foldl (fun a c => 10 * a + (c.toNat - 48)) 0

/-- `trim`: drop leading and trailing whitespace. -/
def trimChars (l : List Char) : List Char :=
  List.rdropWhile Char.isWhitespace (l.dropWhile Char.isWhitespace)

/-- `String.prototype.trim`. -/
def trimS (s : String) : String := ⟨trimChars s.data⟩

/-- `split(sep)` for a one-character separator (JavaScript semantics:
`"".split(",") = [""]`, empty pieces kept). -/
def splitCharAux (sep : Char) (acc : List Char) : List Char → List (List Char)
  | [] => [acc.reverse]
  | c :: rest =>
    if c = sep then acc.reverse :: splitCharAux sep [] rest
    else splitCharAux sep (c :: acc) rest

/-- `s.split(",")` (and `s.split("-")`), as strings. -/
def splitChar (sep : Char) (s : String) : List String :=
  (splitCharAux sep [] s.data).map fun l => ⟨l⟩

/-- Whitespace-run tokenizer: `split(/\s+/)` on a string with no leading
or trailing whitespace yields exactly these (nonempty) tokens. -/
def wordsAux (acc : List Char) : List Char → List (List Char)
  | [] => if acc = [] then [] else [acc.reverse]
  | c :: rest =>
    if c.isWhitespace then
      if acc = [] then wordsAux [] rest else acc.reverse :: wordsAux [] rest
    else wordsAux (c :: acc) rest

/-- `s.split(/\s+/)` for the inputs the bot produces (already trimmed):
JavaScript returns `[""]` on the empty string and the nonempty tokens
otherwise. -/
def jsSplitWS (s : String) : List String :=
  if s.data = [] then [""] else (wordsAux [] s.data).map fun l => ⟨l⟩

/-- Remainder of `text` after the first occurrence of `pat`
(`none` when `pat` does not occur); the search a regex engine performs
for a literal pattern. -/
def firstOccurAux (pat : List Char) : List Char → Option (List Char)
  | [] => if pat = [] then some [] else none
  | c :: rest =>
    if pat.isPrefixOf (c :: rest) then some ((c :: rest).drop pat.length)
    else firstOccurAux pat rest

/-- Whether `text` contains `pat` — a regex literal such as `/\/help/`
matches exactly when its text occurs as a substring. -/
def containsSub (pat text : String) : Bool :=
  (firstOccurAux pat.data text.data).isSome

/-- Capture group of `/\/buy(.*)/` (resp. `/\/sell(.*)/`): the characters
after the first occurrence of the literal, up to the end of the line
(`.` does not match line terminators). -/
def matchCapture (pat text : String) : Option String :=
  match firstOccurAux pat.data text.data with
  | none => none
  | some rem => some ⟨rem.takeWhile fun c => c != '\n' && c != '\r'⟩

/-- `s.startsWith("/")`. -/
def startsWithSlash (s : String) : Bool :=
  match s.data with
  | '/' :: _ => true
  | _ => false

/-- `s.slice(0, n)`. -/
def sliceFirst (s : String) (n : ℕ) : String := ⟨s.data.take n⟩

/-- `s.slice(-n)`. -/
def sliceLast (s : String) (n : ℕ) : String := ⟨s.data.drop (s.data.length - n)⟩

/-! ### `parseFloat` and `parseInt` -/

/-- Exponent suffix of a JavaScript number literal: at `e`/`E` with at
least one digit, scale by the power of ten; otherwise the exponent
characters are not part of the number (factor 1). -/
def expFactorAux (l : List Char) : Q :=
  let sgnRest : Bool × List Char :=
    match l with
    | '-' :: t => (true, t)
    | '+' :: t => (false, t)
    | _ => (false, l)
  let ds := sgnRest.2.takeWhile Char.isDigit
  if ds = [] then Q.ofInt 1
  else if sgnRest.1 then mkQ 1 (10 ^ digitsToNat ds)
  else Q.ofInt (10 ^ digitsToNat ds)

/-- Exponent factor starting at the character after the mantissa. -/
def expFactor : List Char → Q
  | 'e' :: rest => expFactorAux rest
  | 'E' :: rest => expFactorAux rest
  | _ => Q.ofInt 1

/-- Decimal-literal prefix value: digits, optional fraction, optional
exponent; `none` when no digit is present. -/
def parseDec (l : List Char) : Option Q :=
  let ip := l.takeWhile Char.isDigit
  let r1 := l.dropWhile Char.isDigit
  let fpR2 : List Char × List Char :=
    match r1 with
    | '.' :: rest => (rest.takeWhile Char.isDigit, rest.dropWhile Char.isDigit)
    | _ => ([], r1)
  if ip = [] ∧ fpR2.1 = [] then none
  else
    some ((mkQ (digitsToNat ip * 10 ^ fpR2.1.length + digitsToNat fpR2.1)
      (10 ^ fpR2.1.length)).mul (expFactor fpR2.2))

/-- JavaScript `parseFloat`: skip leading whitespace, optional sign,
`Infinity` literal or longest decimal-literal prefix; NaN when nothing
numeric is found. -/
def parseFloat (s : String) : JSNum :=
  let l := s.data.dropWhile Char.isWhitespace
  let sgnRest : Bool × List Char :=
    match l with
    | '-' :: t => (true, t)
    | '+' :: t => (false, t)
    | _ => (false, l)
  if ("Infinity".data).isPrefixOf sgnRest.2 then
    if sgnRest.1 then .neginf else .inf
  else
    match parseDec sgnRest.2 with
    | none => .nan
    | some v => .num (if sgnRest.1 then ⟨-v.n, v.d⟩ else v)

/-- Value of a hexadecimal digit, `none` otherwise. -/
def hexVal (c : Char) : Option ℕ :=
  if c.isDigit then some (c.toNat - 48)
  else if 'a' ≤ c ∧ c ≤ 'f' then some (c.toNat - 87)
  else if 'A' ≤ c ∧ c ≤ 'F' then some (c.toNat - 55)
  else none

/-- Hex digit list to natural number. -/
def hexToNat (ds : List Char) : ℕ :=
  ds.foldl (fun a c => 16 * a + (hexVal c).getD 0) 0

/-- JavaScript `parseInt` with no radix argument: skip whitespace,
optional sign, `0x`/`0X` hexadecimal or decimal digit prefix;
`none` models NaN. -/
def parseIntJS (s : String) : Option ℤ :=
  let l := s.data.dropWhile Char.isWhitespace
  let sgnRest : Bool × List Char :=
    match l with
    | '-' :: t => (true, t)
    | '+' :: t => (false, t)
    | _ => (false, l)
  let sgn : ℤ := if sgnRest.1 then -1 else 1
  match sgnRest.2 with
  | '0' :: 'x' :: r =>
    let ds := r.takeWhile fun c => (hexVal c).isSome
    if ds = [] then none else some (sgn * hexToNat ds)
  | '0' :: 'X' :: r =>
    let ds := r.takeWhile fun c => (hexVal c).isSome
    if ds = [] then none else some (sgn * hexToNat ds)
  | l2 =>
    let ds := l2.takeWhile Char.isDigit
    if ds = [] then none else some (sgn * digitsToNat ds)

example : parseFloat "100" = .num (Q.ofInt 100) := by decide
example : parseFloat "abc" = .nan := by decide
example : parseFloat "-5" = .num (Q.ofInt (-5)) := by decide
example : parseFloat "0.98" = .num ⟨49, 50⟩ := by decide
example : parseFloat "1e3" = .num (Q.ofInt 1000) := by decide
example : parseFloat "1.5e-1" = .num ⟨3, 20⟩ := by decide
example : parseFloat "Infinity" = .inf := by decide
example : parseFloat "100abc" = .num (Q.ofInt 100) := by decide
example : parseIntJS "12" = some 12 := by decide
example : parseIntJS "12.9" = some 12 := by decide
example : parseIntJS "" = none := by decide
example : parseIntJS "abc" = none := by decide
example : parseIntJS "0x1A" = some 26 := by decide
example : jsSplitWS "" = [""] := by decide
example : jsSplitWS "TOKEN-1 100" = ["TOKEN-1", "100"] := by decide
example : trimS "  a b  " = "a b" := by decide
example : splitChar ',' "" = [""] := by decide
example : splitChar ',' "1, 2" = ["1", " 2"] := by decide
example : (Q.ofInt 1000).mul ⟨49, 50⟩ = Q.ofInt 980 := by decide
example : jsFloor (.num ⟨3, 2⟩) = .num (Q.ofInt 1) := by decide
example : (Q.ofInt (10 ^ 18)).mul (Q.ofInt 2) = Q.ofInt 2000000000000000000 := by
  decide

/-! ### Data model (`src/types.ts`) -/

/-- `CommandPayload` of `types.ts`. -/
structure CommandPayload where
  token : String
  amount : Option JSNum
deriving DecidableEq, Repr

/-- `CommandType` of `types.ts`. -/
inductive CommandType where
  | buy : CommandType
  | sell : CommandType
deriving DecidableEq, Repr

/-- The command word, as interpolated into chat messages. -/
def CommandType.name : CommandType → String
  | .buy => "buy"
  | .sell => "sell"

/-- `SwapParams` of `types.ts`. -/
structure SwapParams where
  address : String
  tokenToReceive : String
  tokenToSend : String
  minAmountToReceive : JSNum
  amountToSend : JSNum
deriving DecidableEq, Repr

/-- One element of the `esdts` array of `WalletSetup.callContract`. -/
structure EsdtTransfer where
  amount : JSNum
  nonce : ℕ
  id : String
deriving DecidableEq, Repr

/-- A call argument: `e.Str` or `e.U`. -/
inductive CallArg where
  | str : String → CallArg
  | u : JSNum → CallArg
deriving DecidableEq, Repr

/-- The contract call submitted by `swapToken`. -/
structure ContractCall where
  callee : String
  gasLimit : ℕ
  funcName : String
  esdts : List EsdtTransfer
  funcArgs : List CallArg
deriving DecidableEq, Repr

/-- One entry of the decoded `getAllBondingMetadata` result. -/
structure BondingEntry where
  first_token_id : String
  address : String
deriving DecidableEq, Repr

/-- One entry of the `/accounts/{wallet}/tokens` response; `balance` is the
integer amount in smallest units (modelled as an exact value). -/
structure TokenBalance where
  identifier : String
  balance : Q
  decimals : ℕ
deriving DecidableEq, Repr

/-- Outcomes of the external collaborators for one inbound message:
wallet load, `scQuery` (`Except.error` also covers a decoded result with
no `firstValue`, whose `.map` raises a TypeError), balance fetch, and
swap submission (`explorerUrl` optional on success). -/
structure World where
  walletLoad : Except String String
  queryResult : Except String (List BondingEntry)
  balanceFetch : Except String (List TokenBalance)
  swapOutcome : Except String (Option String)
deriving Repr

/-- Observable action of the bot: chat reply, contract query
(`findContractAddress` → `scQuery`), balance fetch (`api.get`), or swap
submission (`wallet.callContract`). -/
inductive Effect where
  | sendMessage : ℤ → String → Effect
  | contractQuery : Effect
  | balanceFetch : Effect
  | swapSubmit : ContractCall → Effect
deriving DecidableEq, Repr

/-! ### Command Router (`TradingBot` constructor, `isAuthorized`,
`setupCommandHandlers`) -/

/-- Constructor lines 66–71: split the configuration string on commas,
`parseInt` each trimmed entry, keep the entries that are numbers.
(The JavaScript `Set` is modelled as the list of parsed ids; only
emptiness and membership are ever used.) -/
def buildAuthorizedChatIds (chatIdsStr : String) : List ℤ :=
  ((splitChar ',' chatIdsStr).map fun id => parseIntJS (trimS id)).reduceOption

/-- `isAuthorized` (lines 76–84): first component is the returned Bool,
second is whether the empty-allow-list warning is logged on this check. -/
def isAuthorizedM (authorizedChatIds : List ℤ) (chatId : ℤ) : Bool × Bool :=
  if authorizedChatIds = [] then (true, true)
  else (authorizedChatIds.contains chatId, false)

/-- The middleware's reply (line 92). -/
def unauthorizedMessage : String := "⛔ Unauthorized access. This bot is private."

/-- `sendUsageError` (lines 216–225). -/
def usageErrorText (command : String) : String :=
  "❌ Invalid command format. Usage:\n/" ++ command ++
    " <token> [amount]\n\nExample:\n/" ++ command ++ " TOKEN-123 100"

/-- The `/help` reply (lines 102–111). -/
def helpText : String :=
  "Available commands:\n• /buy <token> [amount] - Buy tokens (amount optional)\n• /sell <token> [amount] - Sell tokens (amount optional)\n\nExamples:\n/buy TOKEN-123 100\n/sell TOKEN-abc"

/-- Outcome of the argument-validation part of the `/buy` (lines 117–134)
and `/sell` (lines 142–159) handlers. -/
inductive ParseOutcome where
  | usageError : ParseOutcome
  | invalidAmountMsg : ParseOutcome
  | dispatch : CommandPayload → ParseOutcome
deriving DecidableEq, Repr

/-- Argument validation shared by the buy and sell handlers, applied to
the regex capture `match[1]`: empty capture → usage error; otherwise
split the trimmed capture on whitespace into `[token, amountStr?]`;
a truthy `amountStr` that `parseFloat`s to NaN → invalid-amount reply;
otherwise dispatch the payload. -/
def parseArgs (capture : String) : ParseOutcome :=
  if capture = "" then .usageError
  else if (jsSplitWS (trimS capture)).length < 1 then .usageError
  else
    match (jsSplitWS (trimS capture))[1]? with
    | none => .dispatch ⟨(jsSplitWS (trimS capture)).headD "", none⟩
    | some amountStr =>
      if amountStr = "" then
        .dispatch ⟨(jsSplitWS (trimS capture)).headD "", none⟩
      else if jsIsNaN (parseFloat amountStr) then .invalidAmountMsg
      else .dispatch ⟨(jsSplitWS (trimS capture)).headD "",
        some (parseFloat amountStr)⟩

/-! ### Order Executor (`swapToken`, `findContractAddress`, `handleBuy`,
`handleSell`, `handleCommand`) -/

/-- `swapToken` (lines 260–278), after the wallet has loaded: the
submitted contract call. -/
def swapToken (params : SwapParams) : ContractCall :=
  { callee := params.address
    gasLimit := 10000000
    funcName := "swap"
    esdts := [{ amount := jsFloor params.amountToSend, nonce := 0, id := params.tokenToSend }]
    funcArgs := [CallArg.str params.tokenToReceive, CallArg.u params.minAmountToReceive] }

/-- Error message of `findContractAddress`'s catch block (lines 304–308). -/
def contractLookupFailure (tokenId : String) (inner : String) : String :=
  "Failed to find contract for token " ++ tokenId ++ ": " ++ inner

/-- `findContractAddress` (lines 280–310): query all bonding metadata and
linear-scan (`Array.prototype.find`) for the first entry whose
`first_token_id` is the requested token; any error is wrapped by the
catch block. -/
def findContractAddress (w : World) (tokenId : String) :
    List Effect × Except String String :=
  ([Effect.contractQuery],
    match w.queryResult with
    | .error m => .error (contractLookupFailure tokenId m)
    | .ok entries =>
      match entries.find? fun c => c.first_token_id == tokenId with
      | some c => .ok c.address
      | none =>
        .error (contractLookupFailure tokenId
          ("No contract found for token " ++ tokenId)))

/-- The buy-side base token (line 333). -/
def baseToken : String := "ONE-f9954f"

/-- `amountToPay` (lines 345–347): explicit amount × 10¹⁸ when the amount
is truthy, else balance × 0.98. -/
def amountToPay (amount : Option JSNum) (balance : Q) : JSNum :=
  match amount with
  | some a =>
    if jsTruthy a then jsMul a (.num (Q.ofInt (10 ^ 18)))
    else jsMul (.num balance) (.num (mkQ 98 100))
  | none => jsMul (.num balance) (.num (mkQ 98 100))

/-- `amountToSell` (lines 414–416): explicit amount × 10^decimals of the
sold token when the amount is truthy, else balance × 0.98. -/
def amountToSell (amount : Option JSNum) (balance : Q) (decimals : ℕ) : JSNum :=
  match amount with
  | some a =>
    if jsTruthy a then jsMul a (.num (Q.ofInt (10 ^ decimals)))
    else jsMul (.num balance) (.num (mkQ 98 100))
  | none => jsMul (.num balance) (.num (mkQ 98 100))

/-- The `isNaN() || isLessThanOrEqualTo(0)` guard (lines 349, 418). -/
def invalidAmount (v : JSNum) : Bool := jsIsNaN v || jsLe v (.num (Q.ofInt 0))

/-- Catch block of `handleBuy`/`handleSell` (lines 372–379, 441–448):
send the failure message and rethrow. -/
def orderFail (chatId : ℤ) (effs : List Effect) (m : String) :
    List Effect × Option String :=
  (effs ++ [Effect.sendMessage chatId ("❌ Transaction failed: " ++ m)], some m)

/-- `handleBuy` (lines 312–380): status messages, contract resolution,
wallet load, balance fetch, amount computation, swap submission; returns
the effects performed and the rethrown error message, if any. -/
def handleBuy (w : World) (chatId : ℤ) (payload : CommandPayload) :
    List Effect × Option String :=
  let e0 := [Effect.sendMessage chatId
    ("🔍 Processing buy order for token: " ++ payload.token ++ "...")]
  match findContractAddress w payload.token with
  | (eq, .error m) => orderFail chatId (e0 ++ eq) m
  | (eq, .ok contractAddress) =>
    let e1 := e0 ++ eq ++ [Effect.sendMessage chatId
      ("✅ Found trading contract: " ++ sliceFirst contractAddress 8 ++ "..." ++
        sliceLast contractAddress 4)]
    match w.walletLoad with
    | .error m => orderFail chatId e1 m
    | .ok _wallet =>
      match w.balanceFetch with
      | .error m => orderFail chatId (e1 ++ [Effect.balanceFetch]) m
      | .ok tokens =>
        let e2 := e1 ++ [Effect.balanceFetch]
        match tokens.find? fun t => t.identifier == baseToken with
        | none => orderFail chatId e2 ("Token " ++ baseToken ++ " not found in wallet")
        | some tokenBalance =>
          let amt := amountToPay payload.amount tokenBalance.balance
          if invalidAmount amt then orderFail chatId e2 "Invalid amount calculated"
          else
            let e3 := e2 ++ [Effect.sendMessage chatId
              "💫 Submitting transaction to blockchain..."]
            match w.walletLoad with
            | .error m => orderFail chatId e3 m
            | .ok _ =>
              let call := swapToken
                { address := contractAddress
                  tokenToReceive := payload.token
                  tokenToSend := baseToken
                  minAmountToReceive := .num (Q.ofInt 1)
                  amountToSend := amt }
              let e4 := e3 ++ [Effect.swapSubmit call]
              match w.swapOutcome with
              | .error m => orderFail chatId e4 m
              | .ok explorerUrl =>
                (e4 ++ [Effect.sendMessage chatId
                  ("✅ Transaction successful!\n\nView on explorer: " ++
                    explorerUrl.getD "Transaction submitted (URL not available)")], none)

/-- `handleSell` (lines 382–449): as `handleBuy`, with the sold token's own
balance and decimals and the base token as the received token. -/
def handleSell (w : World) (chatId : ℤ) (payload : CommandPayload) :
    List Effect × Option String :=
  let e0 := [Effect.sendMessage chatId
    ("🔍 Processing sell order for token: " ++ payload.token ++ "...")]
  match findContractAddress w payload.token with
  | (eq, .error m) => orderFail chatId (e0 ++ eq) m
  | (eq, .ok contractAddress) =>
    let e1 := e0 ++ eq ++ [Effect.sendMessage chatId
      ("✅ Found trading contract: " ++ sliceFirst contractAddress 8 ++ "..." ++
        sliceLast contractAddress 4)]
    match w.walletLoad with
    | .error m => orderFail chatId e1 m
    | .ok _wallet =>
      match w.balanceFetch with
      | .error m => orderFail chatId (e1 ++ [Effect.balanceFetch]) m
      | .ok tokens =>
        let e2 := e1 ++ [Effect.balanceFetch]
        match tokens.find? fun t => t.identifier == payload.token with
        | none =>
          orderFail chatId e2 ("Token " ++ payload.token ++ " not found in wallet")
        | some tokenBalance =>
          let amt := amountToSell payload.amount tokenBalance.balance
            tokenBalance.decimals
          if invalidAmount amt then orderFail chatId e2 "Invalid amount calculated"
          else
            let e3 := e2 ++ [Effect.sendMessage chatId
              "💫 Submitting transaction to blockchain..."]
            match w.walletLoad with
            | .error m => orderFail chatId e3 m
            | .ok _ =>
              let call := swapToken
                { address := contractAddress
                  tokenToReceive := baseToken
                  tokenToSend := payload.token
                  minAmountToReceive := .num (Q.ofInt 1)
                  amountToSend := amt }
              let e4 := e3 ++ [Effect.swapSubmit call]
              match w.swapOutcome with
              | .error m => orderFail chatId e4 m
              | .ok explorerUrl =>
                (e4 ++ [Effect.sendMessage chatId
                  ("✅ Transaction successful!\n\nView on explorer: " ++
                    explorerUrl.getD "Transaction submitted (URL not available)")], none)

/-- The `switch` of `handleCommand` (lines 237–244): run the order
handler for the command kind. -/
def orderRun (w : World) (command : CommandType) (chatId : ℤ)
    (payload : CommandPayload) : List Effect × Option String :=
  match command with
  | .buy => handleBuy w chatId payload
  | .sell => handleSell w chatId payload

/-- `handleCommand` (lines 227–251): dispatch to the order handler and
convert a rethrown error into the boundary chat message. -/
def handleCommand (w : World) (command : CommandType) (chatId : ℤ)
    (payload : CommandPayload) : List Effect :=
  match (orderRun w command chatId payload).2 with
  | none => (orderRun w command chatId payload).1
  | some m =>
    (orderRun w command chatId payload).1 ++ [Effect.sendMessage chatId
      ("Error processing " ++ command.name ++ " order: " ++ m)]

/-! ### Notifier text of `/start`, `/address`, `/chatid` -/

/-- Two-decimal rendering of `BigNumber.toFixed(2)` (nearest, ties away
from zero; binary floating-point artifacts are outside the model). -/
def toFixed2 (q : Q) : String :=
  let sgn := if q.n < 0 then "-" else ""
  let c : ℕ := (200 * q.n.natAbs + q.d) / (2 * q.d)
  sgn ++ Nat.repr (c / 100) ++ "." ++
    (if c % 100 < 10 then "0" else "") ++ Nat.repr (c % 100)

/-- `balance / 10 ** decimals` of the `/address` formatter (line 201). -/
def divPow10 (a : Q) (k : ℕ) : Q := mkQ a.n (a.d * 10 ^ k)

/-- One line of the `/address` balance listing (lines 198–203). -/
def balanceLine (t : TokenBalance) : String :=
  (splitChar '-' t.identifier).headD "" ++ ": " ++ toFixed2 (divPow10 t.balance t.decimals)

/-- Join with newlines (`Array.prototype.join("\n")`). -/
def joinLines : List String → String
  | [] => ""
  | [x] => x
  | x :: xs => x ++ "\n" ++ joinLines xs

/-- The `/start` handler body (lines 165–186), after authorization. -/
def startBody (w : World) (chatId : ℤ) : List Effect :=
  match w.walletLoad with
  | .ok wallet =>
    [Effect.sendMessage chatId
      ("Welcome to the Trading Bot! 🤖\n\nThis bot allows you to buy and sell tokens using simple commands.\nYour associated wallet address is: " ++
        wallet ++
        "\n\nUse /help to see available commands.\nUse /address to see your current token balances.")]
  | .error _ =>
    [Effect.sendMessage chatId
      "Welcome to the Trading Bot! An error occurred while fetching your wallet address. Please try /address later."]

/-- The `/address` handler body (lines 189–213), after authorization. -/
def addressBody (w : World) (chatId : ℤ) : List Effect :=
  match w.walletLoad with
  | .error _ => [Effect.sendMessage chatId "Error fetching address and balances."]
  | .ok wallet =>
    match w.balanceFetch with
    | .error _ =>
      [Effect.balanceFetch, Effect.sendMessage chatId "Error fetching address and balances."]
    | .ok tokens =>
      [Effect.balanceFetch,
        Effect.sendMessage chatId
          ("Wallet Address: " ++ wallet ++ "\nBalances:\n" ++
            joinLines (tokens.map balanceLine))]

/-- Body of the `/chatid` handler that `setupAdditionalCommands`
(lines 452–459) would register.  The constructor (lines 54–74) calls only
`setupCommandHandlers`, never `setupAdditionalCommands`, so this handler
is NOT part of the running bot: see `processMessage`. -/
def chatIdBody (chatId : ℤ) : List Effect :=
  [Effect.sendMessage chatId
    ("Your Chat ID is: " ++ chatId.repr ++
      "\n\nTo authorize this chat, add this ID to the TELEGRAM_CHATS_IDS environment variable.")]

/-! ### The wired-up bot -/

/-- Buy/sell `onText` callback after the authorization gate: argument
validation, then dispatch to `handleCommand`. -/
def commandBody (w : World) (command : CommandType) (chatId : ℤ)
    (capture : String) : List Effect :=
  match parseArgs capture with
  | .usageError => [Effect.sendMessage chatId (usageErrorText command.name)]
  | .invalidAmountMsg => [Effect.sendMessage chatId "❌ Invalid amount provided"]
  | .dispatch payload => handleCommand w command chatId payload

/-- All effects the bot performs on one inbound message `(chatId, text)`:
the `message` middleware (lines 88–96) plus, in registration order, the
`onText` handlers for `/help`, `/buy(.*)`, `/sell(.*)`, `/start`,
`/address` — the handlers the constructor actually registers
(`setupAdditionalCommands`, and with it `/chatid`, is never invoked).
Each `onText` handler fires when its regex matches anywhere in the text
and checks authorization first. -/
def processMessage (w : World) (authorizedChatIds : List ℤ) (chatId : ℤ)
    (text : String) : List Effect :=
  let auth := (isAuthorizedM authorizedChatIds chatId).1
  let middleware :=
    if !auth && startsWithSlash text then [Effect.sendMessage chatId unauthorizedMessage]
    else []
  let helpE :=
    if containsSub "/help" text then
      if auth then [Effect.sendMessage chatId helpText] else []
    else []
  let buyE :=
    match matchCapture "/buy" text with
    | none => []
    | some capture => if auth then commandBody w .buy chatId capture else []
  let sellE :=
    match matchCapture "/sell" text with
    | none => []
    | some capture => if auth then commandBody w .sell chatId capture else []
  let startE :=
    if containsSub "/start" text then (if auth then startBody w chatId else []) else []
  let addressE :=
    if containsSub "/address" text then (if auth then addressBody w chatId else []) else []
  middleware ++ helpE ++ buyE ++ sellE ++ startE ++ addressE

/-! ### Concrete fixtures -/

/-- A world in which every external call succeeds. -/
def happyWorld : World :=
  { walletLoad := .ok "erd1walletaddressxyz"
    queryResult := .ok [⟨"TKN-1", "erd1qqqqcontract0001"⟩]
    balanceFetch := .ok [⟨"ONE-f9954f", Q.ofInt 1000, 18⟩, ⟨"TKN-1", Q.ofInt 500, 6⟩]
    swapOutcome := .ok (some "https://explorer.multiversx.com/transactions/abc") }

example : parseArgs "" = .usageError := by decide
example : parseArgs " TOKEN-1 100" = .dispatch ⟨"TOKEN-1", some (.num (Q.ofInt 100))⟩ := by
  decide
example : parseArgs " TOKEN-1 abc" = .invalidAmountMsg := by decide
example : parseArgs "   " = .dispatch ⟨"", none⟩ := by decide
example : matchCapture "/buy" "/buy TKN-1 10" = some " TKN-1 10" := by decide
example : matchCapture "/buy" "/sell TKN-1" = none := by decide
example :
    processMessage happyWorld [5] 7 "/buy TKN-1" =
      [Effect.sendMessage 7 unauthorizedMessage] := by decide
example :
    processMessage happyWorld [5] 5 "/buy TKN-1 2" =
      [Effect.sendMessage 5 "🔍 Processing buy order for token: TKN-1...",
        Effect.contractQuery,
        Effect.sendMessage 5 "✅ Found trading contract: erd1qqqq...0001",
        Effect.balanceFetch,
        Effect.sendMessage 5 "💫 Submitting transaction to blockchain...",
        Effect.swapSubmit
          { callee := "erd1qqqqcontract0001"
            gasLimit := 10000000
            funcName := "swap"
            esdts := [{ amount := .num (Q.ofInt 2000000000000000000), nonce := 0,
                        id := "ONE-f9954f" }]
            funcArgs := [CallArg.str "TKN-1", CallArg.u (.num (Q.ofInt 1))] },
        Effect.sendMessage 5
          "✅ Transaction successful!\n\nView on explorer: https://explorer.multiversx.com/transactions/abc"] := by
  decide

/-! ### Helper lemmas -/

/-- Every token emitted by the whitespace tokenizer is nonempty. -/
lemma wordsAux_mem_ne_nil :
    ∀ (l acc : List Char), ∀ tok ∈ wordsAux acc l, tok ≠ [] := by
  intro l
  induction l with
  | nil =>
    intro acc tok htok
    by_cases h : acc = [] <;> simp [wordsAux, h] at htok
    subst htok
    simpa using h
  | cons c rest ih =>
    intro acc tok htok
    by_cases hws : c.isWhitespace
    · by_cases h : acc = []
      · rw [wordsAux, if_pos hws, if_pos h] at htok
        exact ih [] tok htok
      · rw [wordsAux, if_pos hws, if_neg h] at htok
        rcases List.mem_cons.mp htok with h1 | h1
        · subst h1; simpa using h
        · exact ih [] tok h1
    · rw [wordsAux, if_neg hws] at htok
      exact ih (c :: acc) tok htok

/-- The tokenizer yields something when the accumulator is nonempty. -/
lemma wordsAux_ne_nil_of_acc :
    ∀ (l acc : List Char), acc ≠ [] → wordsAux acc l ≠ [] := by
  intro l
  induction l with
  | nil => intro acc h; simp [wordsAux, h]
  | cons c rest ih =>
    intro acc h
    by_cases hws : c.isWhitespace
    · rw [wordsAux, if_pos hws, if_neg h]
      simp
    · rw [wordsAux, if_neg hws]
      exact ih (c :: acc) (by simp)

/-- The head of `dropWhile p` does not satisfy `p`. -/
lemma dropWhile_head_not (p : Char → Bool) :
    ∀ (l : List Char) (c : Char) (cs : List Char),
      l.dropWhile p = c :: cs → p c = false := by
  intro l
  induction l with
  | nil => intro c cs h; simp [List.dropWhile] at h
  | cons a as ih =>
    intro c cs h
    rw [List.dropWhile_cons] at h
    by_cases hp : p a
    · rw [if_pos hp] at h
      exact ih c cs h
    · rw [if_neg hp] at h
      cases h
      simpa using hp

/-- A trimmed string is empty or begins with a non-whitespace character. -/
lemma trimChars_head (l : List Char) (c : Char) (cs : List Char)
    (h : trimChars l = c :: cs) : c.isWhitespace = false := by
  unfold trimChars at h
  have hpre : List.rdropWhile Char.isWhitespace (l.dropWhile Char.isWhitespace) <+:
      l.dropWhile Char.isWhitespace := List.rdropWhile_prefix _ _
  rw [h] at hpre
  rcases hpre with ⟨t, ht⟩
  have hd : l.dropWhile Char.isWhitespace = c :: (cs ++ t) := by
    rw [← ht]; simp
  exact dropWhile_head_not Char.isWhitespace l c (cs ++ t) hd

/-- Splitting a trimmed string on whitespace never yields the empty list. -/
lemma jsSplitWS_trimS_ne_nil (s : String) : jsSplitWS (trimS s) ≠ [] := by
  unfold jsSplitWS trimS
  by_cases h : trimChars s.data = []
  · simp [h]
  · rcases hc : trimChars s.data with _ | ⟨c, cs⟩
    · exact absurd hc h
    · have hws := trimChars_head s.data c cs hc
      simp only [hc]
      rw [if_neg (by simp)]
      have : wordsAux [] (c :: cs) = wordsAux [c] cs := by
        rw [wordsAux, if_neg (by simp [hws])]
      rw [this]
      intro hcon
      exact wordsAux_ne_nil_of_acc cs [c] (by simp) (by simpa using hcon)

/-- Every token of a split trimmed string is a nonempty string. -/
lemma jsSplitWS_trimS_mem (s : String) (tok : String)
    (htok : tok ∈ jsSplitWS (trimS s)) (hne : trimS s ≠ "") : tok ≠ "" := by
  unfold jsSplitWS at htok
  have hdata : (trimS s).data ≠ [] := by
    intro hcon
    exact hne (String.ext (by rw [hcon]))
  rw [if_neg hdata] at htok
  rcases List.mem_map.mp htok with ⟨l, hl, rfl⟩
  have := wordsAux_mem_ne_nil (trimS s).data [] l hl
  intro hcon
  exact this (congrArg String.data hcon)

/-! ### Claim theorems -/

/-- C2: `authorize(chatId)` returns true iff the authorized set is empty or
contains `chatId`; the empty-set warning is logged exactly on the checks
made while the set is empty. -/
theorem isAuthorized_iff (ids : List ℤ) (chatId : ℤ) :
    ((isAuthorizedM ids chatId).1 = true ↔ (ids = [] ∨ chatId ∈ ids)) ∧
    ((isAuthorizedM ids chatId).2 = true ↔ ids = []) := by
  unfold isAuthorizedM
  by_cases h : ids = [] <;> simp [h]

/-- C10: the authorized-chat set is the comma-split configuration string
with each entry trimmed and `parseInt`-parsed, non-numeric entries
silently discarded; an all-non-numeric configuration yields the empty
set, and the empty set authorizes every chat id (fail-open). -/
theorem authorizedChatIds_construction (s : String) :
    (∀ c : ℤ, c ∈ buildAuthorizedChatIds s ↔
      ∃ e ∈ splitChar ',' s, parseIntJS (trimS e) = some c) ∧
    ((∀ e ∈ splitChar ',' s, parseIntJS (trimS e) = none) →
      buildAuthorizedChatIds s = [] ∧
      ∀ chatId : ℤ, (isAuthorizedM (buildAuthorizedChatIds s) chatId).1 = true) := by
  have hb : buildAuthorizedChatIds s =
      (splitChar ',' s).filterMap fun e => parseIntJS (trimS e) := by
    unfold buildAuthorizedChatIds
    simp [List.reduceOption, List.filterMap_map]
  constructor
  · intro c
    rw [hb, List.mem_filterMap]
  · intro hall
    have h0 : buildAuthorizedChatIds s = [] := by
      rw [hb, List.filterMap_eq_nil_iff]
      exact hall
    exact ⟨h0, fun chatId => by rw [h0]; rfl⟩

/-- C8: the bot defined by the constructor gives no reply at all to
`/chatid` from an authorized chat (and only the unauthorized reply from an
unauthorized one), because `setupAdditionalCommands` — the only place the
`/chatid` handler, `chatIdBody`, is registered — is never called; the
handler body itself would echo the chat id. -/
theorem chatid_never_registered :
    processMessage happyWorld [5] 5 "/chatid" = [] ∧
    processMessage happyWorld [5] 7 "/chatid" =
      [Effect.sendMessage 7 unauthorizedMessage] ∧
    chatIdBody 5 =
      [Effect.sendMessage 5
        "Your Chat ID is: 5\n\nTo authorize this chat, add this ID to the TELEGRAM_CHATS_IDS environment variable."] := by
  decide

/-- C1: a chat id outside a nonempty authorized set gets exactly the
unauthorized reply for any slash-command text, and no contract query,
balance fetch or swap submission happens. -/
theorem unauthorized_rejected (w : World) (ids : List ℤ) (chatId : ℤ)
    (text : String) (hne : ids ≠ []) (hmem : chatId ∉ ids)
    (hcmd : startsWithSlash text = true) :
    processMessage w ids chatId text =
      [Effect.sendMessage chatId unauthorizedMessage] ∧
    ∀ e ∈ processMessage w ids chatId text,
      e ≠ Effect.contractQuery ∧ e ≠ Effect.balanceFetch ∧
      ∀ c, e ≠ Effect.swapSubmit c := by
  have hauth : (isAuthorizedM ids chatId).1 = false := by
    unfold isAuthorizedM
    rw [if_neg hne]
    simpa using hmem
  have h1 : processMessage w ids chatId text =
      [Effect.sendMessage chatId unauthorizedMessage] := by
    unfold processMessage
    rw [hauth, hcmd]
    cases matchCapture "/buy" text <;> cases matchCapture "/sell" text <;> simp
  refine ⟨h1, ?_⟩
  rw [h1]
  intro e he
  rcases List.mem_singleton.mp he with rfl
  refine ⟨by simp, by simp, fun c => by simp⟩

/-- C1 witness: chat 7 is not in the allow-list `[5]`; `/buy TKN-1` gets
only the unauthorized reply. -/
theorem unauthorized_rejected_witness :
    (([5] : List ℤ) ≠ [] ∧ (7 : ℤ) ∉ ([5] : List ℤ) ∧
      startsWithSlash "/buy TKN-1" = true) ∧
    processMessage happyWorld [5] 7 "/buy TKN-1" =
      [Effect.sendMessage 7 unauthorizedMessage] :=
  ⟨⟨by decide, by decide, by decide⟩,
    (unauthorized_rejected happyWorld [5] 7 "/buy TKN-1" (by decide) (by decide)
      (by decide)).1⟩

/-- `List.find?` returns the first matching element. -/
lemma find?_first_match (pre : List BondingEntry) (e : BondingEntry)
    (post : List BondingEntry) (tokenId : String)
    (he : e.first_token_id = tokenId)
    (hpre : ∀ e2 ∈ pre, e2.first_token_id ≠ tokenId) :
    (pre ++ e :: post).find? (fun c => c.first_token_id == tokenId) = some e := by
  induction pre with
  | nil =>
    rw [List.nil_append]
    exact List.find?_cons_of_pos _ (by simp [he])
  | cons a as ih =>
    rw [List.cons_append, List.find?_cons_of_neg _ (by simpa using hpre a (by simp))]
    exact ih fun e2 h2 => hpre e2 (by simp [h2])

/-- C5: with a decoded bonding-metadata list, `findContractAddress`
returns the address of the first entry whose `first_token_id` is the
requested token (first match wins), and fails with the
contract-not-found error when no entry matches. -/
theorem findContractAddress_first_match (w : World) (tokenId : String)
    (entries : List BondingEntry) (hq : w.queryResult = .ok entries) :
    ((∀ e ∈ entries, e.first_token_id ≠ tokenId) →
      (findContractAddress w tokenId).2 =
        .error (contractLookupFailure tokenId
          ("No contract found for token " ++ tokenId))) ∧
    (∀ (pre : List BondingEntry) (e : BondingEntry) (post : List BondingEntry),
      entries = pre ++ e :: post → e.first_token_id = tokenId →
      (∀ e2 ∈ pre, e2.first_token_id ≠ tokenId) →
      (findContractAddress w tokenId).2 = .ok e.address) := by
  have hfc : (findContractAddress w tokenId).2 =
      match entries.find? (fun c => c.first_token_id == tokenId) with
      | some c => .ok c.address
      | none => .error (contractLookupFailure tokenId
          ("No contract found for token " ++ tokenId)) := by
    unfold findContractAddress
    rw [hq]
  constructor
  · intro hnone
    have hfind : entries.find? (fun c => c.first_token_id == tokenId) = none := by
      rw [List.find?_eq_none]
      intro x hx
      simpa using hnone x hx
    rw [hfc, hfind]
  · rintro pre e post rfl he hpre
    rw [hfc, find?_first_match pre e post tokenId he hpre]

/-- C5 witness: with duplicate entries for token `T`, the first address
wins; an absent token id fails with the not-found error. -/
theorem findContractAddress_first_match_witness :
    (findContractAddress
        ⟨.ok "w", .ok [⟨"T", "A"⟩, ⟨"T", "B"⟩], .ok [], .ok none⟩ "T").2 =
      .ok "A" ∧
    (findContractAddress
        ⟨.ok "w", .ok [⟨"T", "A"⟩, ⟨"T", "B"⟩], .ok [], .ok none⟩ "X").2 =
      .error (contractLookupFailure "X" "No contract found for token X") :=
  ⟨(findContractAddress_first_match _ "T" [⟨"T", "A"⟩, ⟨"T", "B"⟩] rfl).2
      [] ⟨"T", "A"⟩ [⟨"T", "B"⟩] rfl rfl (by simp),
    (findContractAddress_first_match _ "X" [⟨"T", "A"⟩, ⟨"T", "B"⟩] rfl).1
      (by decide)⟩

/-- An element located by `getElem?` is a member. -/
lemma mem_of_getElem1 (l : List String) (a : String) (h : l[1]? = some a) :
    a ∈ l := by
  obtain ⟨hlt, rfl⟩ := List.getElem?_eq_some.mp h
  exact List.getElem_mem hlt

/-- The first token of a nonempty-after-trim split is nonempty. -/
lemma headD_token_ne_empty (capture : String) (htne : trimS capture ≠ "") :
    (jsSplitWS (trimS capture)).headD "" ≠ "" := by
  rcases hl : jsSplitWS (trimS capture) with _ | ⟨t0, rest⟩
  · exact absurd hl (jsSplitWS_trimS_ne_nil capture)
  · have ht0 : t0 ∈ jsSplitWS (trimS capture) := by rw [hl]; simp
    simpa using jsSplitWS_trimS_mem capture t0 ht0 htne

/-- C3 counterexample: a whitespace-only argument text — whose trimmed
form is empty — is not rejected with a usage error; it is dispatched with
an empty token. -/
theorem parse_whitespace_dispatched :
    trimS "   " = "" ∧
    parseArgs "   " = .dispatch ⟨"", none⟩ ∧
    parseArgs "   " ≠ .usageError ∧
    parseArgs "   " ≠ .invalidAmountMsg := by decide

/-- C3 (amended): buy/sell argument validation fails exactly when the raw
capture is empty or a second whitespace token is present whose
`parseFloat` is NaN (so `parseFloat` prefixes like `"100abc"` and
infinities are accepted, and a nonempty all-whitespace capture is
dispatched); `""` → usage error, `"TOKEN-1 abc"` → invalid-amount reply,
`"TOKEN-1 100"` → the payload `{token := "TOKEN-1", amount := 100}`,
which the handler passes to `handleCommand` (the Order Executor). -/
theorem parse_fail_iff (capture : String) :
    ((parseArgs capture = .usageError ∨ parseArgs capture = .invalidAmountMsg) ↔
      (capture = "" ∨
        ∃ s, (jsSplitWS (trimS capture))[1]? = some s ∧
          jsIsNaN (parseFloat s) = true)) ∧
    parseArgs "" = .usageError ∧
    parseArgs " TOKEN-1 abc" = .invalidAmountMsg ∧
    parseArgs " TOKEN-1 100" = .dispatch ⟨"TOKEN-1", some (.num (Q.ofInt 100))⟩ ∧
    (∀ (w : World) (command : CommandType) (chatId : ℤ) (p : CommandPayload),
      parseArgs capture = .dispatch p →
      commandBody w command chatId capture = handleCommand w command chatId p) := by
  refine ⟨?_, by decide, by decide, by decide, ?_⟩
  · by_cases hc : capture = ""
    · subst hc
      simp [parseArgs]
    · have hps := jsSplitWS_trimS_ne_nil capture
      have hlen : ¬ (jsSplitWS (trimS capture)).length < 1 := by
        simpa [Nat.lt_one_iff, List.length_eq_zero] using hps
      unfold parseArgs
      rw [if_neg hc, if_neg hlen]
      rcases h1 : (jsSplitWS (trimS capture))[1]? with _ | s
      · simp [hc, h1]
      · have htne : trimS capture ≠ "" := by
          intro h0
          rw [h0] at h1
          simp [jsSplitWS] at h1
        have hsne : s ≠ "" :=
          jsSplitWS_trimS_mem capture s (mem_of_getElem1 _ s h1) htne
        by_cases hnan : jsIsNaN (parseFloat s) = true
        · simp [hsne, hnan, hc, h1]
        · simp [hsne, hnan, hc, h1]
  · intro w command chatId p h
    unfold commandBody
    rw [h]

/-- C3 witness: `"TOKEN-1 100"` (captured with its leading space) parses
to the payload and is dispatched to the Order Executor. -/
theorem parse_fail_iff_witness :
    parseArgs " TOKEN-1 100" =
      .dispatch ⟨"TOKEN-1", some (.num (Q.ofInt 100))⟩ ∧
    commandBody happyWorld .buy 5 " TOKEN-1 100" =
      handleCommand happyWorld .buy 5 ⟨"TOKEN-1", some (.num (Q.ofInt 100))⟩ :=
  ⟨by decide,
    (parse_fail_iff " TOKEN-1 100").2.2.2.2 happyWorld .buy 5 _ (by decide)⟩

/-- C9 counterexample: `/buy TOKEN-1 -5` dispatches a payload whose amount
is the non-positive number −5, violating the claimed
finite-positive-amount invariant. -/
theorem dispatched_payload_counterexample :
    parseArgs " TOKEN-1 -5" =
      .dispatch ⟨"TOKEN-1", some (.num (Q.ofInt (-5)))⟩ ∧
    jsLe (.num (Q.ofInt (-5))) (.num (Q.ofInt 0)) = true := by decide

/-- C9 (amended): a dispatched payload's amount, when present, is never
NaN (but may be non-positive or infinite), and its token is nonempty
unless the trimmed argument text was empty. -/
theorem dispatched_payload_invariant (capture : String) (p : CommandPayload)
    (h : parseArgs capture = .dispatch p) :
    (∀ a, p.amount = some a → jsIsNaN a = false) ∧
    (p.token = "" → trimS capture = "") := by
  unfold parseArgs at h
  split at h
  · exact absurd h (by simp)
  · split at h
    · exact absurd h (by simp)
    · split at h
      · cases h
        refine ⟨by simp, ?_⟩
        intro htok
        by_contra htne
        exact headD_token_ne_empty capture htne htok
      · split at h
        · cases h
          refine ⟨by simp, ?_⟩
          intro htok
          by_contra htne
          exact headD_token_ne_empty capture htne htok
        · split at h
          · exact absurd h (by simp)
          next hnan =>
            cases h
            refine ⟨?_, ?_⟩
            · intro a ha
              cases ha
              simpa [Bool.not_eq_true] using hnan
            · intro htok
              by_contra htne
              exact headD_token_ne_empty capture htne htok

/-- C9 witness: a well-formed dispatch satisfies the amended invariant. -/
theorem dispatched_payload_invariant_witness :
    parseArgs " TOKEN-2 7" = .dispatch ⟨"TOKEN-2", some (.num (Q.ofInt 7))⟩ ∧
    jsIsNaN (.num (Q.ofInt 7)) = false :=
  ⟨by decide,
    (dispatched_payload_invariant " TOKEN-2 7" ⟨"TOKEN-2", some (.num (Q.ofInt 7))⟩
      (by decide)).1 _ rfl⟩

/-- C4 counterexample: for the validated payload amount 0 (which the
parser accepts), the computed buy amount is neither `0 × 10¹⁸` nor an
`InvalidAmountError`: JavaScript truthiness sends the zero amount into
the balance branch, yielding `1000 × 0.98 = 980`. -/
theorem amount_zero_counterexample :
    amountToPay (some (.num (Q.ofInt 0))) (Q.ofInt 1000) = .num (Q.ofInt 980) ∧
    invalidAmount (amountToPay (some (.num (Q.ofInt 0))) (Q.ofInt 1000)) = false ∧
    jsMul (.num (Q.ofInt 0)) (.num (Q.ofInt (10 ^ 18))) = .num (Q.ofInt 0) ∧
    jsLe (.num (Q.ofInt 0)) (.num (Q.ofInt 0)) = true := by decide

/-- C4 (amended): a truthy explicit amount (set, nonzero, non-NaN) is
scaled by 10¹⁸ on the buy side and by the sold token's 10^decimals on the
sell side; a falsy or absent amount yields balance × 0.98 (unfloored);
the `InvalidAmountError` guard fires exactly when that unfloored value is
NaN or ≤ 0; and flooring happens only at submission, where `swapToken`
attaches `Math.floor` of the computed amount. -/
theorem amount_computation (a : JSNum) (balance : Q) (decimals : ℕ) :
    (jsTruthy a = true →
      amountToPay (some a) balance = jsMul a (.num (Q.ofInt (10 ^ 18))) ∧
      amountToSell (some a) balance decimals =
        jsMul a (.num (Q.ofInt (10 ^ decimals)))) ∧
    (jsTruthy a = false →
      amountToPay (some a) balance = jsMul (.num balance) (.num (mkQ 98 100)) ∧
      amountToSell (some a) balance decimals =
        jsMul (.num balance) (.num (mkQ 98 100))) ∧
    amountToPay none balance = jsMul (.num balance) (.num (mkQ 98 100)) ∧
    amountToSell none balance decimals =
      jsMul (.num balance) (.num (mkQ 98 100)) ∧
    (∀ v : JSNum, invalidAmount v = true ↔
      jsIsNaN v = true ∨ jsLe v (.num (Q.ofInt 0)) = true) ∧
    (∀ params : SwapParams, (swapToken params).esdts =
      [{ amount := jsFloor params.amountToSend, nonce := 0,
         id := params.tokenToSend }]) := by
  refine ⟨?_, ?_, rfl, rfl, ?_, fun params => rfl⟩
  · intro ht
    constructor <;> simp [amountToPay, amountToSell, ht]
  · intro ht
    constructor <;> simp [amountToPay, amountToSell, ht]
  · intro v
    simp [invalidAmount]

/-- C4 witness: the spec's own examples — explicit amount 5 gives
`5 × 10¹⁸`; absent amount with balance 1000 gives 980 — and the floored
submission amount. -/
theorem amount_computation_witness :
    jsTruthy (.num (Q.ofInt 5)) = true ∧
    amountToPay (some (.num (Q.ofInt 5))) (Q.ofInt 1000) =
      .num (Q.ofInt 5000000000000000000) ∧
    amountToPay none (Q.ofInt 1000) = .num (Q.ofInt 980) ∧
    jsFloor (amountToPay none (Q.ofInt 999)) = .num (Q.ofInt 979) := by
  refine ⟨by decide, ?_, by decide, by decide⟩
  rw [((amount_computation (.num (Q.ofInt 5)) (Q.ofInt 1000) 6).1 (by decide)).1]
  decide

/-- Effect classifier: contract query. -/
def isQueryE : Effect → Bool
  | .contractQuery => true
  | _ => false

/-- Effect classifier: balance fetch. -/
def isBalanceE : Effect → Bool
  | .balanceFetch => true
  | _ => false

/-- Effect classifier: swap submission. -/
def isSwapE : Effect → Bool
  | .swapSubmit _ => true
  | _ => false

/-- Full branch analysis of one `handleBuy` run: a rethrown error is
always preceded by the handler failure message carrying it; at most one
contract query, balance fetch, and swap submission happen; and any
submitted call is `swapToken` of the buy-side parameters with
min-receive 1. -/
lemma handleBuy_run (w : World) (chatId : ℤ) (p : CommandPayload) :
    (∀ m, (handleBuy w chatId p).2 = some m →
      ∃ pre, (handleBuy w chatId p).1 =
        pre ++ [Effect.sendMessage chatId ("❌ Transaction failed: " ++ m)]) ∧
    (handleBuy w chatId p).1.countP isQueryE ≤ 1 ∧
    (handleBuy w chatId p).1.countP isBalanceE ≤ 1 ∧
    (handleBuy w chatId p).1.countP isSwapE ≤ 1 ∧
    (∀ c, Effect.swapSubmit c ∈ (handleBuy w chatId p).1 →
      ∃ addr amt, c = swapToken
        { address := addr, tokenToReceive := p.token, tokenToSend := baseToken,
          minAmountToReceive := .num (Q.ofInt 1), amountToSend := amt }) := by
  rcases hq : w.queryResult with m | entries <;>
    simp only [handleBuy, findContractAddress, orderFail, hq]
  all_goals try rcases hf : entries.find? (fun c => c.first_token_id == p.token)
    with _ | e
  all_goals try simp only [hf]
  all_goals rcases hw : w.walletLoad with m2 | wal
  all_goals try simp only [hw]
  all_goals rcases hb : w.balanceFetch with m3 | toks
  all_goals try simp only [hb]
  all_goals try rcases hf2 : toks.find? (fun t => t.identifier == baseToken)
    with _ | tb
  all_goals try simp only [hf2]
  all_goals try split
  all_goals rcases hs : w.swapOutcome with m4 | url
  all_goals try simp only [hs]
  all_goals refine ⟨fun m hm => ?_, ?_, ?_, ?_, fun c hc => ?_⟩
  all_goals try (cases hm <;> exact ⟨_, rfl⟩)
  all_goals try (simp at hc; try (subst hc; exact ⟨_, _, rfl⟩))
  all_goals simp [List.countP_append, List.countP_cons, isQueryE, isBalanceE, isSwapE]

/-- Full branch analysis of one `handleSell` run (mirror of
`handleBuy_run`, with the sold token's balance and decimals). -/
lemma handleSell_run (w : World) (chatId : ℤ) (p : CommandPayload) :
    (∀ m, (handleSell w chatId p).2 = some m →
      ∃ pre, (handleSell w chatId p).1 =
        pre ++ [Effect.sendMessage chatId ("❌ Transaction failed: " ++ m)]) ∧
    (handleSell w chatId p).1.countP isQueryE ≤ 1 ∧
    (handleSell w chatId p).1.countP isBalanceE ≤ 1 ∧
    (handleSell w chatId p).1.countP isSwapE ≤ 1 ∧
    (∀ c, Effect.swapSubmit c ∈ (handleSell w chatId p).1 →
      ∃ addr amt, c = swapToken
        { address := addr, tokenToReceive := baseToken, tokenToSend := p.token,
          minAmountToReceive := .num (Q.ofInt 1), amountToSend := amt }) := by
  rcases hq : w.queryResult with m | entries <;>
    simp only [handleSell, findContractAddress, orderFail, hq]
  all_goals try rcases hf : entries.find? (fun c => c.first_token_id == p.token)
    with _ | e
  all_goals try simp only [hf]
  all_goals rcases hw : w.walletLoad with m2 | wal
  all_goals try simp only [hw]
  all_goals rcases hb : w.balanceFetch with m3 | toks
  all_goals try simp only [hb]
  all_goals try rcases hf2 : toks.find? (fun t => t.identifier == p.token)
    with _ | tb
  all_goals try simp only [hf2]
  all_goals try split
  all_goals rcases hs : w.swapOutcome with m4 | url
  all_goals try simp only [hs]
  all_goals refine ⟨fun m hm => ?_, ?_, ?_, ?_, fun c hc => ?_⟩
  all_goals try (cases hm <;> exact ⟨_, rfl⟩)
  all_goals try (simp at hc; try (subst hc; exact ⟨_, _, rfl⟩))
  all_goals simp [List.countP_append, List.countP_cons, isQueryE, isBalanceE, isSwapE]

/-- C6 counterexample: one failing order produces TWO chat messages
carrying the triggering error verbatim — the handler's
"Transaction failed" message and the boundary's "Error processing"
message — not a single one. -/
theorem two_error_messages_counterexample :
    handleCommand ⟨.ok "erd1w", .error "boom", .ok [], .ok none⟩ .buy 5
        ⟨"TKN-1", none⟩ =
      [Effect.sendMessage 5 "🔍 Processing buy order for token: TKN-1...",
        Effect.contractQuery,
        Effect.sendMessage 5
          "❌ Transaction failed: Failed to find contract for token TKN-1: boom",
        Effect.sendMessage 5
          "Error processing buy order: Failed to find contract for token TKN-1: boom"] ∧
    (handleCommand ⟨.ok "erd1w", .error "boom", .ok [], .ok none⟩ .buy 5
        ⟨"TKN-1", none⟩).countP
      (fun e => match e with
        | Effect.sendMessage _ t => containsSub "boom" t
        | _ => false) = 2 := by decide

/-- C6 (amended): every error in an order is caught at the
command-handling boundary — the run's effects are the handler's effects
plus exactly one boundary message — the handler's effects end with its
own failure message, both messages carrying the error text verbatim; no
retry happens: any run performs at most one contract query, one balance
fetch and one swap submission. -/
theorem order_error_reporting (w : World) (command : CommandType) (chatId : ℤ)
    (p : CommandPayload) :
    ((orderRun w command chatId p).2 = none →
      handleCommand w command chatId p = (orderRun w command chatId p).1) ∧
    (∀ m, (orderRun w command chatId p).2 = some m →
      handleCommand w command chatId p =
        (orderRun w command chatId p).1 ++
          [Effect.sendMessage chatId
            ("Error processing " ++ command.name ++ " order: " ++ m)] ∧
      ∃ pre, (orderRun w command chatId p).1 =
        pre ++ [Effect.sendMessage chatId ("❌ Transaction failed: " ++ m)]) ∧
    (handleCommand w command chatId p).countP isQueryE ≤ 1 ∧
    (handleCommand w command chatId p).countP isBalanceE ≤ 1 ∧
    (handleCommand w command chatId p).countP isSwapE ≤ 1 := by
  have hrun :
      (∀ m, (orderRun w command chatId p).2 = some m →
        ∃ pre, (orderRun w command chatId p).1 =
          pre ++ [Effect.sendMessage chatId ("❌ Transaction failed: " ++ m)]) ∧
      (orderRun w command chatId p).1.countP isQueryE ≤ 1 ∧
      (orderRun w command chatId p).1.countP isBalanceE ≤ 1 ∧
      (orderRun w command chatId p).1.countP isSwapE ≤ 1 := by
    cases command
    · obtain ⟨h1, h2, h3, h4, _⟩ := handleBuy_run w chatId p
      exact ⟨h1, h2, h3, h4⟩
    · obtain ⟨h1, h2, h3, h4, _⟩ := handleSell_run w chatId p
      exact ⟨h1, h2, h3, h4⟩
  obtain ⟨hfail, hq1, hb1, hs1⟩ := hrun
  refine ⟨?_, ?_, ?_, ?_, ?_⟩
  · intro h0
    unfold handleCommand
    rw [h0]
  · intro m hm
    constructor
    · unfold handleCommand
      rw [hm]
    · exact hfail m hm
  all_goals
    unfold handleCommand
  all_goals
    rcases hr : (orderRun w command chatId p).2 with _ | m
  all_goals
    simp [List.countP_append, List.countP_cons, isQueryE, isBalanceE, isSwapE,
      hq1, hb1, hs1]

/-- C6 witness: a concrete failing order is caught and reported at the
boundary with the error message appended verbatim. -/
theorem order_error_reporting_witness :
    (orderRun ⟨.ok "erd1w", .error "boom", .ok [], .ok none⟩ .buy 5
        ⟨"TKN-1", none⟩).2 =
      some "Failed to find contract for token TKN-1: boom" ∧
    handleCommand ⟨.ok "erd1w", .error "boom", .ok [], .ok none⟩ .buy 5
        ⟨"TKN-1", none⟩ =
      (orderRun ⟨.ok "erd1w", .error "boom", .ok [], .ok none⟩ .buy 5
          ⟨"TKN-1", none⟩).1 ++
        [Effect.sendMessage 5
          "Error processing buy order: Failed to find contract for token TKN-1: boom"] :=
  ⟨by decide,
    ((order_error_reporting ⟨.ok "erd1w", .error "boom", .ok [], .ok none⟩ .buy 5
        ⟨"TKN-1", none⟩).2.1 _ (by decide)).1⟩

/-- C7: every submitted swap call has gas limit 10,000,000, function name
`swap`, exactly one attached transfer — the token to send with the
floored computed amount at nonce 0 — and exactly the two arguments
(token-to-receive string, min-amount numeric), with the minimum receive
amount hardcoded to 1. -/
theorem swap_call_shape (w : World) (command : CommandType) (chatId : ℤ)
    (p : CommandPayload) (c : ContractCall)
    (hc : Effect.swapSubmit c ∈ handleCommand w command chatId p) :
    c.gasLimit = 10000000 ∧ c.funcName = "swap" ∧
    ∃ params : SwapParams,
      c = swapToken params ∧
      params.minAmountToReceive = .num (Q.ofInt 1) ∧
      c.esdts = [{ amount := jsFloor params.amountToSend, nonce := 0,
                   id := params.tokenToSend }] ∧
      c.funcArgs = [CallArg.str params.tokenToReceive,
                    CallArg.u (.num (Q.ofInt 1))] := by
  have hmem : Effect.swapSubmit c ∈ (orderRun w command chatId p).1 := by
    unfold handleCommand at hc
    rcases hr : (orderRun w command chatId p).2 with _ | m <;> rw [hr] at hc
    · exact hc
    · rcases List.mem_append.mp hc with h | h
      · exact h
      · simp at h
  cases command
  · obtain ⟨_, _, _, _, hshape⟩ := handleBuy_run w chatId p
    obtain ⟨addr, amt, rfl⟩ := hshape c hmem
    exact ⟨rfl, rfl, _, rfl, rfl, rfl, rfl⟩
  · obtain ⟨_, _, _, _, hshape⟩ := handleSell_run w chatId p
    obtain ⟨addr, amt, rfl⟩ := hshape c hmem
    exact ⟨rfl, rfl, _, rfl, rfl, rfl, rfl⟩

/-- C7 witness: the concrete successful buy of 2 base-token units submits
the fixed-shape call. -/
theorem swap_call_shape_witness :
    Effect.swapSubmit
        (swapToken
          { address := "erd1qqqqcontract0001", tokenToReceive := "TKN-1",
            tokenToSend := "ONE-f9954f",
            minAmountToReceive := .num (Q.ofInt 1),
            amountToSend := .num (Q.ofInt 2000000000000000000) }) ∈
      handleCommand happyWorld .buy 5 ⟨"TKN-1", some (.num (Q.ofInt 2))⟩ ∧
    (swapToken
        { address := "erd1qqqqcontract0001", tokenToReceive := "TKN-1",
          tokenToSend := "ONE-f9954f",
          minAmountToReceive := .num (Q.ofInt 1),
          amountToSend := .num (Q.ofInt 2000000000000000000) }).gasLimit =
      10000000 :=
  ⟨by decide,
    (swap_call_shape happyWorld .buy 5 ⟨"TKN-1", some (.num (Q.ofInt 2))⟩ _
      (by decide)).1⟩

/-- C10 witness: a configuration of only non-numeric entries yields the
empty set, and then any chat id (e.g. 42) is authorized. -/
theorem authorizedChatIds_construction_witness :
    (∀ e ∈ splitChar ',' "abc, def", parseIntJS (trimS e) = none) ∧
    buildAuthorizedChatIds "abc, def" = [] ∧
    (isAuthorizedM (buildAuthorizedChatIds "abc, def") 42).1 = true :=
  ⟨by decide,
    ((authorizedChatIds_construction "abc, def").2 (by decide)).1,
    ((authorizedChatIds_construction "abc, def").2 (by decide)).2 42⟩
